import Mathlib

/-!
Shallow embedding of `src/components/GeometryExplorer/GeometryExplorer.tsx`.

The component is a single React component driving a three.js scene.  We model
its observable state as an explicit record and each of its operations as a
pure state transformer:

* the `useState` initializers reading `localStorage` (`initWireframe`,
  `initAutoRotate`),
* the two sync effects writing the mirror refs and `localStorage`
  (`syncWireframe`, `syncAutoRotate`),
* the scene-initialization effect (`initScene`), including the initial
  `animate()` call and the cleanup closure it returns (`cleanupT`, which
  captures the geometry and material created at init time),
* the per-frame callback (`animateStep`) and its iteration (`advanceFrames`),
* `replaceGeometry` (also in a traced variant `replaceGeometryT` emitting the
  order of its primitive steps, and as a list of micro-states
  `replaceGeometrySteps`),
* the wireframe-application effect (`applyWireframe`).

GPU-resource bookkeeping: every geometry allocation (`allocShape`) hands out a
fresh numeric id, and every `dispose()` call on a geometry appends its id to
`disposed`, so `disposed.count i` is the number of times the dispose
hook of shape `i` has run.  Rational numbers stand in for the JS floats (all constants in
the source are exactly representable).
-/

namespace GeometryExplorer

/-- Constructor arguments of the three.js geometry classes used by the
component, one constructor per geometry class that appears in the source. -/
inductive GeomParams where
  | sphere (radius : ℚ) (widthSegments heightSegments : ℕ)
  | plane (width height : ℚ)
  | cone (radius height : ℚ) (radialSegments : ℕ)
  | cylinder (radiusTop radiusBottom height : ℚ) (radialSegments : ℕ)
  | torus (radius tube : ℚ) (radialSegments tubularSegments : ℕ)
  | torusKnot (radius tube : ℚ) (tubularSegments radialSegments : ℕ)
  | circle (radius : ℚ) (segments : ℕ)
  | ring (innerRadius outerRadius : ℚ) (thetaSegments : ℕ)
  | box (width height depth : ℚ)
deriving DecidableEq, Repr

/-- A geometry instance: a fresh id (allocation identity) plus its
construction parameters. -/
structure Shape where
  id : ℕ
  params : GeomParams
deriving DecidableEq, Repr

/-- Configuration of the perspective camera, as set by the init effect. -/
structure Camera where
  fov : ℚ
  aspect : ℚ
  near : ℚ
  far : ℚ
  posX : ℚ
  posY : ℚ
  posZ : ℚ
deriving DecidableEq, Repr

/-- The single mesh: its attached geometry and its rotation angles. -/
structure Mesh where
  geometry : Shape
  rotX : ℚ
  rotY : ℚ
deriving DecidableEq, Repr

/-- Objects added to the scene besides the mesh itself (the mutable
parts of the mesh live in `ExplorerState.mesh`; `meshNode` marks its slot in the child
list). -/
inductive SceneObj where
  | ambientLight (color : ℕ) (intensity : ℚ)
  | directionalLight (color : ℕ) (intensity : ℚ) (posX posY posZ : ℚ)
  | meshNode
  | axesHelper (size : ℚ)
  | gridHelper (size divisions : ℕ) (color1 color2 : ℕ)
deriving DecidableEq, Repr

/-- Events emitted by the operations, used to state ordering properties. -/
inductive Event where
  | factoryInvoked (id : ℕ)
  | geometryAttached (newId oldId : ℕ)
  | shapeDisposed (id : ℕ)
  | resizeDeregistered
  | frameCancelled (handle : ℕ)
  | rendererDisposed
  | materialDisposed
  | sceneCleared
deriving DecidableEq, Repr

/-- Complete observable state of the component. -/
structure ExplorerState where
  /-- reactive state cell `wireframe` -/
  wireframe : Bool
  /-- reactive state cell `autoRotate` -/
  autoRotate : Bool
  /-- mirror cell `wireframeRef.current` -/
  wireframeRef : Bool
  /-- mirror cell `autoRotateRef.current` -/
  autoRotateRef : Bool
  /-- the `localStorage` contents, an association list of key/value strings -/
  store : List (String × String)
  /-- the camera held in `cameraRef.current` -/
  camera : Option Camera
  /-- whether `rendererRef.current` is non-null -/
  rendererPresent : Bool
  /-- number of `renderer.dispose()` calls -/
  rendererDisposeCount : ℕ
  /-- child list of `sceneRef.current` (`none` before init) -/
  sceneChildren : Option (List SceneObj)
  /-- the mesh held in `currentMeshRef.current` -/
  mesh : Option Mesh
  /-- the `material.wireframe` flag of the single MeshPhongMaterial -/
  materialWireframe : Bool
  /-- the `material.needsUpdate` flag -/
  materialNeedsUpdate : Bool
  /-- number of `material.dispose()` calls -/
  materialDisposeCount : ℕ
  /-- the pending animation-frame handle in `animRef.current` -/
  animFrame : Option ℕ
  /-- next animation-frame handle to hand out (browser handles start at 1) -/
  rafNext : ℕ
  /-- handles passed to `cancelAnimationFrame` -/
  cancelledFrames : List ℕ
  /-- whether the window resize listener is registered -/
  resizeRegistered : Bool
  /-- next geometry id to allocate -/
  nextId : ℕ
  /-- multiset (as list) of geometry ids whose `dispose()` ran -/
  disposed : List ℕ
  /-- geometry id captured by the cleanup closure of the init effect -/
  initGeomId : Option ℕ
  /-- number of `renderer.render` calls -/
  renderCount : ℕ
deriving DecidableEq, Repr

/-- Models `localStorage.getItem`. -/
def getItem (st : List (String × String)) (k : String) : Option String :=
  (st.find? (fun e => e.1 = k)).map (fun e => e.2)

/-- Models `localStorage.setItem`: update in place, or append if the key is new. -/
def setItem (st : List (String × String)) (k v : String) : List (String × String) :=
  match st with
  | [] => [(k, v)]
  | e :: rest => if e.1 = k then (k, v) :: rest else e :: setItem rest k v

/-- JavaScript `String(b)` for a boolean. -/
def boolString (b : Bool) : String :=
  if b then "true" else "false"

/-- Models the `useState` initializer `localStorage.getItem("wireframe") === "true"`. -/
def initWireframe (st : List (String × String)) : Bool :=
  decide (getItem st "wireframe" = some "true")

/-- Models the `useState` initializer `localStorage.getItem("autoRotate") !== "false"`. -/
def initAutoRotate (st : List (String × String)) : Bool :=
  !(decide (getItem st "autoRotate" = some "false"))

/-- One entry of the `geometries` catalog: object key, display label, and the
parameters its zero-argument factory passes to the geometry constructor. -/
structure CatalogEntry where
  key : String
  label : String
  createParams : GeomParams
deriving DecidableEq, Repr

/-- The `geometries` catalog, in source (insertion) order. -/
def geometries : List CatalogEntry :=
  [⟨"Esfera", "Esfera", .sphere 1 32 16⟩,
   ⟨"Plano", "Plano", .plane 2 2⟩,
   ⟨"Cono", "Cono", .cone 1 2 16⟩,
   ⟨"Cilindro", "Cilindro", .cylinder 1 1 2 16⟩,
   ⟨"Toro", "Toro", .torus 1 (3/10) 16 64⟩,
   ⟨"Nudo", "Nudo Toroidal", .torusKnot 1 (3/10) 100 16⟩,
   ⟨"Círculo", "Círculo", .circle 1 32⟩,
   ⟨"Anillo", "Anillo", .ring (1/2) 1 32⟩]

/-- Constructing a geometry object: hands out a fresh id. -/
def allocShape (p : GeomParams) (s : ExplorerState) : Shape × ExplorerState :=
  (⟨s.nextId, p⟩, { s with nextId := s.nextId + 1 })

/-- Models `geometry.dispose()` on shape `i`. -/
def disposeShape (i : ℕ) (s : ExplorerState) : ExplorerState :=
  { s with disposed := i :: s.disposed }

/-- State of the component right after the `useState` / `useRef` initializers
ran, before any effect. -/
def initialState (st : List (String × String)) : ExplorerState :=
  { wireframe := initWireframe st
    autoRotate := initAutoRotate st
    wireframeRef := initWireframe st
    autoRotateRef := initAutoRotate st
    store := st
    camera := none
    rendererPresent := false
    rendererDisposeCount := 0
    sceneChildren := none
    mesh := none
    materialWireframe := false
    materialNeedsUpdate := false
    materialDisposeCount := 0
    animFrame := none
    rafNext := 1
    cancelledFrames := []
    resizeRegistered := false
    nextId := 0
    disposed := []
    initGeomId := none
    renderCount := 0 }

/-- The `useEffect([wireframe])` sync: mirror to the ref and persist. -/
def syncWireframe (s : ExplorerState) : ExplorerState :=
  { s with wireframeRef := s.wireframe
           store := setItem s.store "wireframe" (boolString s.wireframe) }

/-- The `useEffect([autoRotate])` sync: mirror to the ref and persist. -/
def syncAutoRotate (s : ExplorerState) : ExplorerState :=
  { s with autoRotateRef := s.autoRotate
           store := setItem s.store "autoRotate" (boolString s.autoRotate) }

/-- The per-frame `animate` callback: reschedule itself first, then rotate if
the auto-rotate mirror cell is set and a mesh exists, then render. -/
def animateStep (s : ExplorerState) : ExplorerState :=
  let s1 := { s with animFrame := some s.rafNext, rafNext := s.rafNext + 1 }
  let s2 :=
    if s1.autoRotateRef then
      match s1.mesh with
      | some m =>
          { s1 with mesh := some { m with rotX := m.rotX + 1/100, rotY := m.rotY + 3/200 } }
      | none => s1
    else s1
  { s2 with renderCount := s2.renderCount + 1 }

/-- `N` iterations of the frame callback. -/
def advanceFrames : ℕ → ExplorerState → ExplorerState
  | 0, s => s
  | n + 1, s => advanceFrames n (animateStep s)

/-- Appends objects to the child list of the scene (`scene.add(...)`). -/
def addChildren (s : ExplorerState) (objs : List SceneObj) : ExplorerState :=
  { s with sceneChildren := s.sceneChildren.map (fun cs => cs ++ objs) }

/-- The scene-initialization effect body (the mounted case: the early return
on a null `mountRef` never fires once the container is attached).  `width`
and `height` are the pixel dimensions of the container. -/
def initScene (width height : ℚ) (s0 : ExplorerState) : ExplorerState :=
  let s1 := { s0 with sceneChildren := some []
                      camera := some ⟨75, width / height, 1/10, 1000, 3, 2, 4⟩ }
  let s2 :=
    if s1.rendererPresent then
      { s1 with rendererDisposeCount := s1.rendererDisposeCount + 1 }
    else s1
  let s3 := { s2 with rendererPresent := true }
  let s4 := addChildren s3
    [.ambientLight 0xffffff (35/100), .directionalLight 0xffffff (9/10) 5 5 5]
  let (geometry, s5) := allocShape (.box (3/2) (3/2) (3/2)) s4
  let s6 := { s5 with materialWireframe := s5.wireframeRef, materialNeedsUpdate := false }
  let s7 := { s6 with mesh := some ⟨geometry, 0, 0⟩ }
  let s8 := addChildren s7 [.meshNode]
  let s9 := addChildren s8 [.axesHelper 2, .gridHelper 10 10 0x444444 0x222222]
  let s10 := { s9 with initGeomId := some geometry.id }
  let s11 := animateStep s10
  { s11 with resizeRegistered := true }

/-- The `useEffect([wireframe])` that applies the flag to the material
(no-op while no mesh exists). -/
def applyWireframe (s : ExplorerState) : ExplorerState :=
  match s.mesh with
  | none => s
  | some _ => { s with materialWireframe := s.wireframe, materialNeedsUpdate := true }

/-- Mounting the component: initializers, then the four effects in
declaration order (wireframe sync, autoRotate sync, scene init, wireframe
application). -/
def mount (st : List (String × String)) (width height : ℚ) : ExplorerState :=
  applyWireframe (initScene width height (syncAutoRotate (syncWireframe (initialState st))))

/-- A state-change commit of the wireframe cell: set the state, then run the
two effects keyed on it, in declaration order. -/
def commitWireframe (b : Bool) (s : ExplorerState) : ExplorerState :=
  applyWireframe (syncWireframe { s with wireframe := b })

/-- A state-change commit of the autoRotate cell. -/
def commitAutoRotate (b : Bool) (s : ExplorerState) : ExplorerState :=
  syncAutoRotate { s with autoRotate := b }

/-- The wireframe toggle button. -/
def toggleWireframe (s : ExplorerState) : ExplorerState :=
  commitWireframe (!s.wireframe) s

/-- `replaceGeometry`, with the event trace of its primitive steps in
execution order: save the old reference, invoke the factory, assign the new
geometry to the mesh, dispose the old geometry. -/
def replaceGeometryT (p : GeomParams) (s : ExplorerState) : ExplorerState × List Event :=
  match s.mesh with
  | none => (s, [])
  | some mesh =>
      let oldGeometry := mesh.geometry
      let (newGeometry, s1) := allocShape p s
      let s2 := { s1 with mesh := some { mesh with geometry := newGeometry } }
      let s3 := disposeShape oldGeometry.id s2
      (s3, [.factoryInvoked newGeometry.id,
            .geometryAttached newGeometry.id oldGeometry.id,
            .shapeDisposed oldGeometry.id])

/-- Effect of `replaceGeometry` on the state alone. -/
def replaceGeometry (p : GeomParams) (s : ExplorerState) : ExplorerState :=
  (replaceGeometryT p s).1

/-- The intermediate states `replaceGeometry` passes through: before the
factory call, after the factory call, after the assignment to
`mesh.geometry`, after disposing the old geometry. -/
def replaceGeometrySteps (p : GeomParams) (s : ExplorerState) : List ExplorerState :=
  match s.mesh with
  | none => [s]
  | some mesh =>
      let (newGeometry, s1) := allocShape p s
      let s2 := { s1 with mesh := some { mesh with geometry := newGeometry } }
      let s3 := disposeShape mesh.geometry.id s2
      [s, s1, s2, s3]

/-- The cleanup closure returned by the init effect, with its event trace:
deregister resize, cancel the pending frame if any, dispose renderer, dispose
the geometry captured at init time, dispose the material, clear the scene. -/
def cleanupT (s : ExplorerState) : ExplorerState × List Event :=
  let s1 := { s with resizeRegistered := false }
  let cancel : ExplorerState × List Event :=
    match s1.animFrame with
    | some h => ({ s1 with cancelledFrames := h :: s1.cancelledFrames }, [.frameCancelled h])
    | none => (s1, [])
  let s2 := cancel.1
  let s3 := { s2 with rendererDisposeCount := s2.rendererDisposeCount + 1 }
  let geomDispose : ExplorerState × List Event :=
    match s3.initGeomId with
    | some g => (disposeShape g s3, [.shapeDisposed g])
    | none => (s3, [])
  let s4 := geomDispose.1
  let s5 := { s4 with materialDisposeCount := s4.materialDisposeCount + 1 }
  let s6 := { s5 with sceneChildren := s5.sceneChildren.map (fun _ => []) }
  (s6, [Event.resizeDeregistered] ++ cancel.2 ++ [Event.rendererDisposed]
        ++ geomDispose.2 ++ [Event.materialDisposed, Event.sceneCleared])

/-- Transcription of the catalog parameters exactly as the specification
documents them, for comparison with the `geometries` definition taken from
the source. -/
def specCatalogParams : List GeomParams :=
  [.sphere 1 32 16, .plane 2 2, .cone 1 2 16, .cylinder 1 1 2 16,
   .torus 1 (3/10) 16 64, .torusKnot 1 (3/10) 100 16, .circle 1 32,
   .ring (1/2) 1 32]

/-- Reading a key back right after writing it returns the written value. -/
theorem getItem_setItem (st : List (String × String)) (k v : String) :
    getItem (setItem st k v) k = some v := by
  induction st with
  | nil => simp [getItem, setItem]
  | cons e rest ih =>
      by_cases h : e.1 = k
      · simp [setItem, h, getItem]
      · simpa [setItem, h, getItem] using ih

/-- C1: for every catalog factory, invoking the geometry replacement
operation when an active Mesh exists leaves exactly one Shape attached to the
Mesh (the freshly created one), and the previously attached Shape has its
dispose hook invoked exactly once; if no Mesh exists, the operation changes
nothing. -/
theorem replaceGeometry_disposes_old_once (p : GeomParams) (s : ExplorerState) :
    (s.mesh = none → replaceGeometry p s = s) ∧
    (∀ m : Mesh, s.mesh = some m → s.disposed.count m.geometry.id = 0 →
      (replaceGeometry p s).mesh = some { m with geometry := ⟨s.nextId, p⟩ } ∧
      (replaceGeometry p s).disposed.count m.geometry.id = 1) := by
  constructor
  · intro h
    simp [replaceGeometry, replaceGeometryT, h]
  · intro m hm hc
    simp [replaceGeometry, replaceGeometryT, hm, allocShape, disposeShape,
      List.count_cons, hc]

/-- Witness for C1 on the concrete mounted run. -/
theorem replaceGeometry_disposes_old_once_witness :
    (mount [] 800 600).mesh = some ⟨⟨0, .box (3/2) (3/2) (3/2)⟩, 1/100, 3/200⟩ ∧
    (mount [] 800 600).disposed.count 0 = 0 ∧
    (replaceGeometry (.sphere 1 32 16) (mount [] 800 600)).mesh =
      some ⟨⟨(mount [] 800 600).nextId, .sphere 1 32 16⟩, 1/100, 3/200⟩ ∧
    (replaceGeometry (.sphere 1 32 16) (mount [] 800 600)).disposed.count 0 = 1 := by
  have hmesh : (mount [] 800 600).mesh = some ⟨⟨0, .box (3/2) (3/2) (3/2)⟩, 1/100, 3/200⟩ := by
    norm_num +decide [mount, initialState, syncWireframe, syncAutoRotate, initScene,
      addChildren, allocShape, animateStep, applyWireframe, initWireframe, initAutoRotate,
      getItem, boolString, setItem]
  have h := (replaceGeometry_disposes_old_once (.sphere 1 32 16) (mount [] 800 600)).2
    ⟨⟨0, .box (3/2) (3/2) (3/2)⟩, 1/100, 3/200⟩ hmesh (by decide)
  exact ⟨hmesh, by decide, h.1, h.2⟩

/-- C4: the catalog factories carry exactly the documented fixed parameters,
and calling any factory twice yields two independent Shape instances:
distinct identities, each with the requested parameters, and disposing either
one leaves the dispose count of the other untouched. -/
theorem catalog_factories_fresh :
    geometries.map (fun e => e.createParams) = specCatalogParams ∧
    ∀ (s : ExplorerState) (e : CatalogEntry),
      let r1 := allocShape e.createParams s
      let r2 := allocShape e.createParams r1.2
      r1.1.id ≠ r2.1.id ∧
      r1.1.params = e.createParams ∧
      r2.1.params = e.createParams ∧
      (disposeShape r1.1.id r2.2).disposed.count r2.1.id =
        r2.2.disposed.count r2.1.id ∧
      (disposeShape r2.1.id r2.2).disposed.count r1.1.id =
        r2.2.disposed.count r1.1.id := by
  refine ⟨by norm_num [geometries, specCatalogParams], ?_⟩
  intro s e
  simp [allocShape, disposeShape, List.count_cons]

/-- C7: with nothing stored, the startup reads default to autoRotate = true
and wireframe = false; with a stored value, the initial boolean mirrors the
stored string. -/
theorem startup_preference_defaults (st : List (String × String)) :
    (getItem st "wireframe" = none → initWireframe st = false) ∧
    (getItem st "autoRotate" = none → initAutoRotate st = true) ∧
    (∀ v, getItem st "wireframe" = some v → (initWireframe st = true ↔ v = "true")) ∧
    (∀ v, getItem st "autoRotate" = some v → (initAutoRotate st = false ↔ v = "false")) := by
  refine ⟨?_, ?_, ?_, ?_⟩
  · intro h; simp [initWireframe, h]
  · intro h; simp [initAutoRotate, h]
  · intro v h; simp [initWireframe, h]
  · intro v h; simp [initAutoRotate, h]

/-- Witness for C7 on an empty store and on stores holding each key. -/
theorem startup_preference_defaults_witness :
    initWireframe [] = false ∧ initAutoRotate [] = true ∧
    (initWireframe [("wireframe", "true")] = true ↔ ("true" : String) = "true") ∧
    (initAutoRotate [("autoRotate", "false")] = false ↔ ("false" : String) = "false") :=
  ⟨(startup_preference_defaults []).1 (by decide),
   (startup_preference_defaults []).2.1 (by decide),
   (startup_preference_defaults [("wireframe", "true")]).2.2.1 "true" (by decide),
   (startup_preference_defaults [("autoRotate", "false")]).2.2.2 "false" (by decide)⟩

/-- C9: a geometry replacement only changes the attached Shape of the Mesh:
camera, scene children (both lights, the axes helper and the grid helper),
the rotation of the Mesh, the material and the rest of the environment are
untouched. -/
theorem replaceGeometry_frame (p : GeomParams) (s : ExplorerState) :
    (replaceGeometry p s).camera = s.camera ∧
    (replaceGeometry p s).sceneChildren = s.sceneChildren ∧
    ((replaceGeometry p s).mesh.map fun m => (m.rotX, m.rotY)) =
      (s.mesh.map fun m => (m.rotX, m.rotY)) ∧
    (replaceGeometry p s).materialWireframe = s.materialWireframe ∧
    (replaceGeometry p s).materialDisposeCount = s.materialDisposeCount ∧
    (replaceGeometry p s).rendererDisposeCount = s.rendererDisposeCount ∧
    (replaceGeometry p s).store = s.store ∧
    (replaceGeometry p s).animFrame = s.animFrame ∧
    (replaceGeometry p s).resizeRegistered = s.resizeRegistered := by
  rcases hm : s.mesh with _ | m <;>
    simp [replaceGeometry, replaceGeometryT, allocShape, disposeShape, hm]

/-- The frame callback never writes the auto-rotate mirror cell. -/
theorem animateStep_autoRotateRef (s : ExplorerState) :
    (animateStep s).autoRotateRef = s.autoRotateRef := by
  by_cases hr : s.autoRotateRef <;> rcases hm : s.mesh with _ | m <;>
    simp [animateStep, hr, hm]

/-- With the auto-rotate mirror cell unset, a frame leaves the mesh alone. -/
theorem animateStep_mesh_of_not_rotating (s : ExplorerState)
    (hr : s.autoRotateRef = false) : (animateStep s).mesh = s.mesh := by
  simp [animateStep, hr]

/-- With the auto-rotate mirror cell set and a mesh present, a frame adds the
fixed per-frame deltas to the rotation angles. -/
theorem animateStep_mesh_of_rotating (s : ExplorerState) (m : Mesh)
    (hr : s.autoRotateRef = true) (hm : s.mesh = some m) :
    (animateStep s).mesh = some ⟨m.geometry, m.rotX + 1/100, m.rotY + 3/200⟩ := by
  simp [animateStep, hr, hm]

/-- Iterating frames with auto-rotate off never touches the mesh. -/
theorem advanceFrames_mesh_of_not_rotating (N : ℕ) :
    ∀ s : ExplorerState, s.autoRotateRef = false → (advanceFrames N s).mesh = s.mesh := by
  induction N with
  | zero => intro s hr; rfl
  | succ n ih =>
      intro s hr
      rw [advanceFrames, ih _ (by rw [animateStep_autoRotateRef]; exact hr),
        animateStep_mesh_of_not_rotating s hr]

/-- Iterating `N` frames with auto-rotate on accumulates exactly `N` deltas. -/
theorem advanceFrames_mesh_of_rotating (N : ℕ) :
    ∀ (s : ExplorerState) (m : Mesh), s.autoRotateRef = true → s.mesh = some m →
      (advanceFrames N s).mesh =
        some ⟨m.geometry, m.rotX + N * (1/100), m.rotY + N * (3/200)⟩ := by
  induction N with
  | zero => intro s m hr hm; simpa [advanceFrames] using hm
  | succ n ih =>
      intro s m hr hm
      rw [advanceFrames,
        ih (animateStep s) ⟨m.geometry, m.rotX + 1/100, m.rotY + 3/200⟩
          (by rw [animateStep_autoRotateRef]; exact hr)
          (animateStep_mesh_of_rotating s m hr hm)]
      have hx : m.rotX + 1/100 + (n : ℚ) * (1/100) = m.rotX + ((n : ℕ) + 1 : ℚ) * (1/100) := by
        ring
      have hy : m.rotY + 3/200 + (n : ℚ) * (3/200) = m.rotY + ((n : ℕ) + 1 : ℚ) * (3/200) := by
        ring
      simp only [hx, hy]
      push_cast
      ring_nf

/-- C5: toggling auto-rotate off and advancing `N` frames leaves the mesh
(and so its rotation angles) unchanged; toggling it on with a mesh present
and advancing `N` frames adds exactly `N` times 1/100 to the x angle and `N`
times 3/200 to the y angle. -/
theorem rotation_over_frames (s : ExplorerState) (N : ℕ) :
    ((advanceFrames N (commitAutoRotate false s)).mesh = s.mesh) ∧
    (∀ m : Mesh, s.mesh = some m →
      (advanceFrames N (commitAutoRotate true s)).mesh =
        some ⟨m.geometry, m.rotX + N * (1/100), m.rotY + N * (3/200)⟩) := by
  constructor
  · rw [advanceFrames_mesh_of_not_rotating N _ (by simp [commitAutoRotate, syncAutoRotate])]
    simp [commitAutoRotate, syncAutoRotate]
  · intro m hm
    exact advanceFrames_mesh_of_rotating N _ m (by simp [commitAutoRotate, syncAutoRotate])
      (by simpa [commitAutoRotate, syncAutoRotate] using hm)

/-- Witness for C5 on the concrete mounted run, advancing two frames. -/
theorem rotation_over_frames_witness :
    ((advanceFrames 2 (commitAutoRotate false (mount [] 800 600))).mesh =
      (mount [] 800 600).mesh) ∧
    (advanceFrames 2 (commitAutoRotate true (mount [] 800 600))).mesh =
      some ⟨⟨0, .box (3/2) (3/2) (3/2)⟩, 1/100 + 2 * (1/100), 3/200 + 2 * (3/200)⟩ := by
  have hmesh : (mount [] 800 600).mesh = some ⟨⟨0, .box (3/2) (3/2) (3/2)⟩, 1/100, 3/200⟩ := by
    norm_num +decide [mount, initialState, syncWireframe, syncAutoRotate, initScene,
      addChildren, allocShape, animateStep, applyWireframe, initWireframe, initAutoRotate,
      getItem, boolString, setItem]
  have h := rotation_over_frames (mount [] 800 600) 2
  exact ⟨h.1, by rw [(h.2 _ hmesh : _)]; norm_num⟩

/-- C6: toggling wireframe false, then true, then back restores the material
flag, restores the reactive state, and leaves the string form of the final
value in the store under the wireframe key. -/
theorem wireframe_toggle_roundtrip (s : ExplorerState)
    (hmat : s.materialWireframe = s.wireframe) (hw : s.wireframe = false) :
    (toggleWireframe (toggleWireframe s)).materialWireframe = s.materialWireframe ∧
    (toggleWireframe (toggleWireframe s)).wireframe = s.wireframe ∧
    getItem (toggleWireframe (toggleWireframe s)).store "wireframe" = some "false" := by
  rcases hm : s.mesh with _ | m <;>
    simp [toggleWireframe, commitWireframe, applyWireframe, syncWireframe, hm, hw, hmat,
      boolString, getItem_setItem]

/-- Witness for C6 on the concrete mounted run with an empty store. -/
theorem wireframe_toggle_roundtrip_witness :
    ((mount [] 800 600).materialWireframe = (mount [] 800 600).wireframe ∧
      (mount [] 800 600).wireframe = false) ∧
    (toggleWireframe (toggleWireframe (mount [] 800 600))).materialWireframe =
      (mount [] 800 600).materialWireframe ∧
    (toggleWireframe (toggleWireframe (mount [] 800 600))).wireframe =
      (mount [] 800 600).wireframe ∧
    getItem (toggleWireframe (toggleWireframe (mount [] 800 600))).store "wireframe" =
      some "false" :=
  ⟨⟨by decide, by decide⟩, wireframe_toggle_roundtrip (mount [] 800 600) (by decide) (by decide)⟩

/-- The two mirror cells, together with the reactive cells they shadow. -/
def MirrorInv (s : ExplorerState) : Prop :=
  s.wireframeRef = s.wireframe ∧ s.autoRotateRef = s.autoRotate

/-- C8: the mirror cells agree with the reactive state after mount and after
every state-change commit, and no operation other than the two sync effects
writes a mirror cell: geometry replacement, the frame callback, the teardown
and the material-application effect all leave both mirror cells unchanged. -/
theorem mirror_cells_in_sync (st : List (String × String)) (w h : ℚ) (b : Bool)
    (p : GeomParams) (s : ExplorerState) (hs : MirrorInv s) :
    MirrorInv (mount st w h) ∧
    MirrorInv (commitWireframe b s) ∧
    MirrorInv (commitAutoRotate b s) ∧
    ((replaceGeometry p s).wireframeRef = s.wireframeRef ∧
      (replaceGeometry p s).autoRotateRef = s.autoRotateRef) ∧
    ((animateStep s).wireframeRef = s.wireframeRef ∧
      (animateStep s).autoRotateRef = s.autoRotateRef) ∧
    (((cleanupT s).1).wireframeRef = s.wireframeRef ∧
      ((cleanupT s).1).autoRotateRef = s.autoRotateRef) ∧
    ((applyWireframe s).wireframeRef = s.wireframeRef ∧
      (applyWireframe s).autoRotateRef = s.autoRotateRef) := by
  refine ⟨?_, ?_, ?_, ?_, ?_, ?_, ?_⟩
  · constructor <;>
      · by_cases hr : initAutoRotate st <;> by_cases hwf : initWireframe st <;>
          simp [mount, initialState, syncWireframe, syncAutoRotate, initScene, addChildren,
            allocShape, animateStep, applyWireframe, hr, hwf]
  · exact ⟨by rcases hm : s.mesh with _ | m <;>
        simp [commitWireframe, syncWireframe, applyWireframe, hm],
      by rcases hm : s.mesh with _ | m <;>
        simpa [commitWireframe, syncWireframe, applyWireframe, hm] using hs.2⟩
  · exact ⟨by simpa [commitAutoRotate, syncAutoRotate] using hs.1,
      by simp [commitAutoRotate, syncAutoRotate]⟩
  · rcases hm : s.mesh with _ | m <;>
      simp [replaceGeometry, replaceGeometryT, allocShape, disposeShape, hm]
  · exact ⟨by by_cases hr : s.autoRotateRef <;> rcases hm : s.mesh with _ | m <;>
        simp [animateStep, hr, hm], animateStep_autoRotateRef s⟩
  · rcases ha : s.animFrame with _ | k <;> rcases hg : s.initGeomId with _ | g <;>
      simp [cleanupT, disposeShape, ha, hg]
  · rcases hm : s.mesh with _ | m <;> simp [applyWireframe, hm]

/-- Witness for C8 on the concrete mounted run. -/
theorem mirror_cells_in_sync_witness :
    MirrorInv (mount [] 800 600) ∧
    MirrorInv (commitWireframe true (mount [] 800 600)) ∧
    MirrorInv (commitAutoRotate true (mount [] 800 600)) ∧
    ((replaceGeometry (.sphere 1 32 16) (mount [] 800 600)).wireframeRef =
        (mount [] 800 600).wireframeRef ∧
      (replaceGeometry (.sphere 1 32 16) (mount [] 800 600)).autoRotateRef =
        (mount [] 800 600).autoRotateRef) ∧
    ((animateStep (mount [] 800 600)).wireframeRef = (mount [] 800 600).wireframeRef ∧
      (animateStep (mount [] 800 600)).autoRotateRef = (mount [] 800 600).autoRotateRef) ∧
    (((cleanupT (mount [] 800 600)).1).wireframeRef = (mount [] 800 600).wireframeRef ∧
      ((cleanupT (mount [] 800 600)).1).autoRotateRef = (mount [] 800 600).autoRotateRef) ∧
    ((applyWireframe (mount [] 800 600)).wireframeRef = (mount [] 800 600).wireframeRef ∧
      (applyWireframe (mount [] 800 600)).autoRotateRef = (mount [] 800 600).autoRotateRef) :=
  mirror_cells_in_sync [] 800 600 true (.sphere 1 32 16) (mount [] 800 600)
    ⟨by decide, by decide⟩

/-- Decides whether, in an event trace, the first dispose of the old shape
occurs strictly before the first attachment of the new shape — the execution
order asserted by the specification for `replaceGeometry`. -/
def disposePrecedesAttach (evs : List Event) (oldId newId : ℕ) : Bool :=
  match evs.findIdx? (fun e => e == Event.shapeDisposed oldId),
        evs.findIdx? (fun e => e == Event.geometryAttached newId oldId) with
  | some i, some j => i < j
  | _, _ => false

/-- Counterexample to C3 as stated: on the concrete mounted run, replacing
the cube with the sphere emits factory invocation, then attachment, then
disposal — the disposal of the old Shape does NOT precede the attachment of
the new one, while both events do occur. -/
theorem replaceGeometry_order_counterexample :
    (replaceGeometryT (.sphere 1 32 16) (mount [] 800 600)).2 =
      [.factoryInvoked 1, .geometryAttached 1 0, .shapeDisposed 0] ∧
    disposePrecedesAttach
      (replaceGeometryT (.sphere 1 32 16) (mount [] 800 600)).2 0 1 = false := by
  constructor
  · decide
  · decide

/-- C3 (amended): the operation invokes the factory, then attaches the new
Shape to the Mesh (detaching the current reference), and only then disposes
the detached old Shape; at every intermediate state exactly one undisposed
Shape is attached to the Mesh — never zero, never two. -/
theorem replaceGeometry_step_order (p : GeomParams) (s : ExplorerState) (m : Mesh)
    (hm : s.mesh = some m) (hlive : s.disposed.count m.geometry.id = 0)
    (hid : m.geometry.id < s.nextId) (hbound : ∀ j ∈ s.disposed, j < s.nextId) :
    (replaceGeometryT p s).2 =
      [.factoryInvoked s.nextId, .geometryAttached s.nextId m.geometry.id,
       .shapeDisposed m.geometry.id] ∧
    ∀ t ∈ replaceGeometrySteps p s,
      ∃ mt : Mesh, t.mesh = some mt ∧ t.disposed.count mt.geometry.id = 0 := by
  have hfresh : s.disposed.count s.nextId = 0 :=
    List.count_eq_zero.mpr (fun hmem => lt_irrefl _ (hbound _ hmem))
  constructor
  · simp [replaceGeometryT, hm, allocShape, disposeShape]
  · intro t ht
    simp only [replaceGeometrySteps, hm, allocShape, disposeShape, List.mem_cons,
      List.mem_singleton, List.not_mem_nil, or_false] at ht
    rcases ht with rfl | rfl | rfl | rfl
    · exact ⟨m, hm, hlive⟩
    · exact ⟨m, rfl, hlive⟩
    · exact ⟨{ m with geometry := ⟨s.nextId, p⟩ }, rfl, hfresh⟩
    · refine ⟨{ m with geometry := ⟨s.nextId, p⟩ }, rfl, ?_⟩
      have hne : ¬ (m.geometry.id = s.nextId) := by omega
      simp [List.count_cons, hfresh, hne]

/-- Witness for the amended C3 on the concrete mounted run. -/
theorem replaceGeometry_step_order_witness :
    ((replaceGeometryT (.sphere 1 32 16) (mount [] 800 600)).2 =
      [.factoryInvoked (mount [] 800 600).nextId,
       .geometryAttached (mount [] 800 600).nextId 0, .shapeDisposed 0] ∧
    ∀ t ∈ replaceGeometrySteps (.sphere 1 32 16) (mount [] 800 600),
      ∃ mt : Mesh, t.mesh = some mt ∧ t.disposed.count mt.geometry.id = 0) := by
  have hmesh : (mount [] 800 600).mesh = some ⟨⟨0, .box (3/2) (3/2) (3/2)⟩, 1/100, 3/200⟩ := by
    norm_num +decide [mount, initialState, syncWireframe, syncAutoRotate, initScene,
      addChildren, allocShape, animateStep, applyWireframe, initWireframe, initAutoRotate,
      getItem, boolString, setItem]
  exact replaceGeometry_step_order (.sphere 1 32 16) (mount [] 800 600)
    ⟨⟨0, .box (3/2) (3/2) (3/2)⟩, 1/100, 3/200⟩ hmesh (by decide) (by decide) (by decide)

/-- C2 divergence, evaluated on the failing run (mount with empty store,
one geometry replacement, unmount): teardown deregisters the resize handler,
cancels the pending frame, disposes the renderer, disposes a geometry,
disposes the material and clears the scene in the stated order — but the
geometry it disposes is the init-time cube (id 0, taking its dispose count
to 2) and not the currently attached sphere (id 1, never disposed). -/
theorem teardown_divergence :
    ((replaceGeometry (.sphere 1 32 16) (mount [] 800 600)).mesh.map
        fun m => m.geometry.id) = some 1 ∧
    (replaceGeometry (.sphere 1 32 16) (mount [] 800 600)).disposed.count 0 = 1 ∧
    (cleanupT (replaceGeometry (.sphere 1 32 16) (mount [] 800 600))).2 =
      [.resizeDeregistered, .frameCancelled 1, .rendererDisposed, .shapeDisposed 0,
       .materialDisposed, .sceneCleared] ∧
    (cleanupT (replaceGeometry (.sphere 1 32 16) (mount [] 800 600))).1.disposed.count 0 = 2 ∧
    (cleanupT (replaceGeometry (.sphere 1 32 16) (mount [] 800 600))).1.disposed.count 1 = 0 ∧
    (cleanupT (replaceGeometry (.sphere 1 32 16) (mount [] 800 600))).1.resizeRegistered = false ∧
    (cleanupT (replaceGeometry (.sphere 1 32 16) (mount [] 800 600))).1.cancelledFrames = [1] ∧
    (cleanupT (replaceGeometry (.sphere 1 32 16) (mount [] 800 600))).1.rendererDisposeCount = 1 ∧
    (cleanupT (replaceGeometry (.sphere 1 32 16) (mount [] 800 600))).1.materialDisposeCount = 1 ∧
    (cleanupT (replaceGeometry (.sphere 1 32 16) (mount [] 800 600))).1.sceneChildren = some [] := by
  refine ⟨?_, ?_, ?_, ?_, ?_, ?_, ?_, ?_, ?_, ?_⟩ <;> decide

/-- Field values of `replaceGeometry` when a mesh is attached. -/
theorem replaceGeometry_fields (p : GeomParams) (s : ExplorerState) (m : Mesh)
    (hm : s.mesh = some m) :
    (replaceGeometry p s).mesh = some { m with geometry := ⟨s.nextId, p⟩ } ∧
    (replaceGeometry p s).nextId = s.nextId + 1 ∧
    (replaceGeometry p s).disposed = m.geometry.id :: s.disposed ∧
    (replaceGeometry p s).initGeomId = s.initGeomId := by
  simp [replaceGeometry, replaceGeometryT, hm, allocShape, disposeShape]

/-- Invariant of the state after mount followed by at least one geometry
replacement: a mesh is attached whose geometry is the most recently
allocated, undisposed, non-cube shape; the init-time cube (id 0) has been
disposed exactly once; every disposed id is in allocation range; and the
cleanup closure still holds the cube. -/
def ReplacedInv (s : ExplorerState) : Prop :=
  ∃ m : Mesh, s.mesh = some m ∧ 1 ≤ m.geometry.id ∧ m.geometry.id + 1 = s.nextId ∧
    s.disposed.count m.geometry.id = 0 ∧ s.disposed.count 0 = 1 ∧
    (∀ j ∈ s.disposed, j < s.nextId) ∧ s.initGeomId = some 0

/-- A further geometry replacement preserves `ReplacedInv`. -/
theorem replaceGeometry_preserves_inv (p : GeomParams) (s : ExplorerState)
    (h : ReplacedInv s) : ReplacedInv (replaceGeometry p s) := by
  obtain ⟨m, hm, h1, h2, h3, h4, h5, h6⟩ := h
  obtain ⟨hf1, hf2, hf3, hf4⟩ := replaceGeometry_fields p s m hm
  have hfresh : s.disposed.count s.nextId = 0 :=
    List.count_eq_zero.mpr (fun hmem => lt_irrefl _ (h5 _ hmem))
  refine ⟨{ m with geometry := ⟨s.nextId, p⟩ }, hf1, ?_, ?_, ?_, ?_, ?_, ?_⟩
  · show 1 ≤ s.nextId
    omega
  · show s.nextId + 1 = (replaceGeometry p s).nextId
    exact hf2.symm
  · show (replaceGeometry p s).disposed.count s.nextId = 0
    rw [hf3]
    have hne : ¬ (s.nextId = m.geometry.id) := by omega
    simp [List.count_cons, hfresh, hne]
  · rw [hf3]
    have hne : ¬ ((0 : ℕ) = m.geometry.id) := by omega
    simp [List.count_cons, h4, hne]
  · rw [hf3, hf2]
    intro j hj
    rcases List.mem_cons.mp hj with rfl | hj
    · omega
    · exact Nat.lt_succ_of_lt (h5 _ hj)
  · rw [hf4, h6]

/-- Key field values of the mounted state. -/
theorem mount_fields (st : List (String × String)) (w h : ℚ) :
    ((mount st w h).mesh.map fun m => m.geometry.id) = some 0 ∧
    (mount st w h).nextId = 1 ∧ (mount st w h).disposed = [] ∧
    (mount st w h).initGeomId = some 0 := by
  by_cases hr : initAutoRotate st <;> by_cases hwf : initWireframe st <;>
    simp [mount, initialState, syncWireframe, syncAutoRotate, initScene, addChildren,
      allocShape, animateStep, applyWireframe, hr, hwf]

/-- The first geometry replacement after mount establishes `ReplacedInv`. -/
theorem mount_replace_establishes_inv (st : List (String × String)) (w h : ℚ)
    (p : GeomParams) : ReplacedInv (replaceGeometry p (mount st w h)) := by
  obtain ⟨hm0, hn, hd, hg⟩ := mount_fields st w h
  obtain ⟨m0, hm, hid⟩ := Option.map_eq_some'.mp hm0
  obtain ⟨hf1, hf2, hf3, hf4⟩ := replaceGeometry_fields p (mount st w h) m0 hm
  refine ⟨{ m0 with geometry := ⟨(mount st w h).nextId, p⟩ }, hf1, ?_, ?_, ?_, ?_, ?_, ?_⟩
  · show 1 ≤ (mount st w h).nextId
    omega
  · show (mount st w h).nextId + 1 = (replaceGeometry p (mount st w h)).nextId
    exact hf2.symm
  · show (replaceGeometry p (mount st w h)).disposed.count (mount st w h).nextId = 0
    rw [hf3, hd, hid, hn]
    simp
  · rw [hf3, hd, hid]
    simp
  · rw [hf3, hf2, hd, hid, hn]
    intro j hj
    simp only [List.mem_singleton] at hj
    omega
  · rw [hf4, hg]

/-- Folding further replacements preserves `ReplacedInv`. -/
theorem foldl_replace_preserves_inv (ps : List GeomParams) :
    ∀ s : ExplorerState, ReplacedInv s →
      ReplacedInv (ps.foldl (fun t q => replaceGeometry q t) s) := by
  induction ps with
  | nil => intro s h; exact h
  | cons p rest ih => intro s h; exact ih _ (replaceGeometry_preserves_inv p s h)

/-- Disposal bookkeeping and event trace of the cleanup closure. -/
theorem cleanupT_fields (s : ExplorerState) (g : ℕ) (hg : s.initGeomId = some g) :
    (cleanupT s).1.disposed = g :: s.disposed ∧
    (cleanupT s).2 = [Event.resizeDeregistered]
      ++ (match s.animFrame with
          | some k => [Event.frameCancelled k]
          | none => [])
      ++ [Event.rendererDisposed, Event.shapeDisposed g, Event.materialDisposed,
          Event.sceneCleared] := by
  rcases ha : s.animFrame with _ | k <;> simp [cleanupT, disposeShape, hg, ha]

/-- C10: in every run that mounts and then replaces the geometry at least
once, the teardown closure never disposes the currently attached Shape (its
dispose count stays 0), while the init-time cube — already disposed once by
the first replacement — is disposed a second time. -/
theorem cleanup_after_replacement_misses_current (st : List (String × String))
    (w h : ℚ) (ps : List GeomParams) (hps : ps ≠ []) :
    ∃ gid : ℕ,
      ((ps.foldl (fun t q => replaceGeometry q t) (mount st w h)).mesh.map
        fun m => m.geometry.id) = some gid ∧
      gid ≠ 0 ∧
      (ps.foldl (fun t q => replaceGeometry q t) (mount st w h)).initGeomId = some 0 ∧
      (ps.foldl (fun t q => replaceGeometry q t) (mount st w h)).disposed.count 0 = 1 ∧
      Event.shapeDisposed gid ∉
        (cleanupT (ps.foldl (fun t q => replaceGeometry q t) (mount st w h))).2 ∧
      Event.shapeDisposed 0 ∈
        (cleanupT (ps.foldl (fun t q => replaceGeometry q t) (mount st w h))).2 ∧
      (cleanupT (ps.foldl (fun t q => replaceGeometry q t) (mount st w h))).1.disposed.count
        gid = 0 ∧
      (cleanupT (ps.foldl (fun t q => replaceGeometry q t) (mount st w h))).1.disposed.count
        0 = 2 := by
  rcases ps with _ | ⟨p, rest⟩
  · exact absurd rfl hps
  have hinv : ReplacedInv ((p :: rest).foldl (fun t q => replaceGeometry q t) (mount st w h)) := by
    rw [List.foldl_cons]
    exact foldl_replace_preserves_inv rest _ (mount_replace_establishes_inv st w h p)
  obtain ⟨m, hm, h1, h2, h3, h4, h5, h6⟩ := hinv
  obtain ⟨hc1, hc2⟩ := cleanupT_fields _ 0 h6
  refine ⟨m.geometry.id, by rw [hm]; rfl, by omega, h6, h4, ?_, ?_, ?_, ?_⟩
  · rw [hc2]
    rcases ((p :: rest).foldl (fun t q => replaceGeometry q t) (mount st w h)).animFrame with
      _ | k <;> simp <;> omega
  · rw [hc2]
    rcases ((p :: rest).foldl (fun t q => replaceGeometry q t) (mount st w h)).animFrame with
      _ | k <;> simp
  · rw [hc1, List.count_cons, h3]
    have hne : ¬ ((0 : ℕ) = m.geometry.id) := by omega
    simp [hne]
  · rw [hc1, List.count_cons, h4]
    simp

/-- Witness for C10 on the concrete single-replacement run. -/
theorem cleanup_after_replacement_misses_current_witness :
    ∃ gid : ℕ,
      (([GeomParams.sphere 1 32 16].foldl (fun t q => replaceGeometry q t)
          (mount [] 800 600)).mesh.map fun m => m.geometry.id) = some gid ∧
      gid ≠ 0 ∧
      ([GeomParams.sphere 1 32 16].foldl (fun t q => replaceGeometry q t)
          (mount [] 800 600)).initGeomId = some 0 ∧
      ([GeomParams.sphere 1 32 16].foldl (fun t q => replaceGeometry q t)
          (mount [] 800 600)).disposed.count 0 = 1 ∧
      Event.shapeDisposed gid ∉
        (cleanupT ([GeomParams.sphere 1 32 16].foldl (fun t q => replaceGeometry q t)
          (mount [] 800 600))).2 ∧
      Event.shapeDisposed 0 ∈
        (cleanupT ([GeomParams.sphere 1 32 16].foldl (fun t q => replaceGeometry q t)
          (mount [] 800 600))).2 ∧
      (cleanupT ([GeomParams.sphere 1 32 16].foldl (fun t q => replaceGeometry q t)
          (mount [] 800 600))).1.disposed.count gid = 0 ∧
      (cleanupT ([GeomParams.sphere 1 32 16].foldl (fun t q => replaceGeometry q t)
          (mount [] 800 600))).1.disposed.count 0 = 2 :=
  cleanup_after_replacement_misses_current [] 800 600 [GeomParams.sphere 1 32 16]
    (by simp)

end GeometryExplorer
